import Mathlib

/-!
Verification of the declaration surface of `src/lib/wycc_lib.h`, the
runtime-support header for Whiley programs translated to C.  The header is
declaration-only, so we embed its C declarations as data: the C types that
occur, the members of the `Wycc_object` struct (including its stray empty
member declaration), the parameter lists of its function prototypes, and the
ordered list of top-level declarations.  The theorems below settle the claims
about this surface.
-/

namespace WyccLib

/-- The C types occurring in `wycc_lib.h`: `void`, `int`, `char`, the
typedef name `wycc_obj`, and pointer types. -/
inductive CType where
  | void : CType
  | int : CType
  | char : CType
  | named : String → CType
  | ptr : CType → CType
deriving DecidableEq, Repr

/-- One entry of a struct body: either a proper member declaration
(name and type) or a stray empty declaration, i.e. a lone `;`. -/
inductive StructEntry where
  | emptyDecl : StructEntry
  | field : String → CType → StructEntry
deriving DecidableEq, Repr

/-- A C parameter list as written: `()` (unprototyped, no constraint on the
caller's arguments), `(void)` (prototyped, zero arguments), or a prototyped
list of named parameters. -/
inductive ParamList where
  | unprototyped : ParamList
  | voidList : ParamList
  | params : List (String × CType) → ParamList
deriving DecidableEq, Repr

/-- A C function signature: name, return type, parameter list. -/
structure FunDecl where
  name : String
  ret : CType
  args : ParamList
deriving DecidableEq, Repr

/-- A top-level C declaration: a `typedef struct` definition (struct tag,
struct body, typedef name), a bare function prototype, or a function
definition carrying a body (a list of statements). -/
inductive CDecl where
  | typedefStruct : String → List StructEntry → String → CDecl
  | funProto : FunDecl → CDecl
  | funDef : FunDecl → List String → CDecl
deriving DecidableEq, Repr

/-- The body of `struct Wycc_object` as written in the header: a stray lone
semicolon, then `int typ;`, `int cnt;`, `void* ptr;`. -/
def wyccObjEntries : List StructEntry :=
  [ StructEntry.emptyDecl,
    StructEntry.field "typ" CType.int,
    StructEntry.field "cnt" CType.int,
    StructEntry.field "ptr" (CType.ptr CType.void) ]

/-- `void wycc_main();` — empty parentheses, not `(void)`. -/
def wycc_main_decl : FunDecl :=
  ⟨"wycc_main", CType.void, ParamList.unprototyped⟩

/-- `wycc_obj* wycc_deref_box(wycc_obj* itm, int flg);` -/
def wycc_deref_box_decl : FunDecl :=
  ⟨"wycc_deref_box", CType.ptr (CType.named "wycc_obj"),
    ParamList.params
      [("itm", CType.ptr (CType.named "wycc_obj")), ("flg", CType.int)]⟩

/-- `wycc_obj* wycc_box_str(char* text);` -/
def wycc_box_str_decl : FunDecl :=
  ⟨"wycc_box_str", CType.ptr (CType.named "wycc_obj"),
    ParamList.params [("text", CType.ptr CType.char)]⟩

/-- `void wyil_debug_str(char* mesg);` -/
def wyil_debug_str_decl : FunDecl :=
  ⟨"wyil_debug_str", CType.void,
    ParamList.params [("mesg", CType.ptr CType.char)]⟩

/-- `void wyil_debug_obj(wycc_obj *ptr);` -/
def wyil_debug_obj_decl : FunDecl :=
  ⟨"wyil_debug_obj", CType.void,
    ParamList.params [("ptr", CType.ptr (CType.named "wycc_obj"))]⟩

/-- The prototypes under the header comment
`routines used by wycc for structure and bookkeeping`. -/
def bookkeepingSection : List FunDecl :=
  [wycc_main_decl, wycc_deref_box_decl, wycc_box_str_decl]

/-- The prototypes under the header comment
`routines to implement wyil operations`. -/
def wyilSection : List FunDecl :=
  [wyil_debug_str_decl, wyil_debug_obj_decl]

/-- All top-level declarations of `wycc_lib.h`, in source order.  The
commented-out line `// wycc_obj* wyil_obj_str(char* text);` is a comment,
not a declaration, and so does not appear. -/
def headerDecls : List CDecl :=
  [ CDecl.typedefStruct "Wycc_object" wyccObjEntries "wycc_obj",
    CDecl.funProto wycc_main_decl,
    CDecl.funProto wycc_deref_box_decl,
    CDecl.funProto wycc_box_str_decl,
    CDecl.funProto wyil_debug_str_decl,
    CDecl.funProto wyil_debug_obj_decl ]

/-- The function signature attached to a declaration, if any. -/
def CDecl.funSig : CDecl → Option FunDecl
  | CDecl.typedefStruct _ _ _ => none
  | CDecl.funProto d => some d
  | CDecl.funDef d _ => some d

/-- Whether a declaration carries a function body. -/
def CDecl.hasBody : CDecl → Bool
  | CDecl.funDef _ _ => true
  | _ => false

/-- Whether a declaration is a definition (a `typedef struct` defines the
struct type and the typedef name; a function definition defines a function;
a bare prototype defines nothing). -/
def CDecl.isDefinition : CDecl → Bool
  | CDecl.typedefStruct _ _ _ => true
  | CDecl.funDef _ _ => true
  | CDecl.funProto _ => false

/-- Every function signature declared in the header, in source order. -/
def headerFunDecls : List FunDecl :=
  headerDecls.filterMap CDecl.funSig

/-- Look up the declared signature of a function symbol by name. -/
def findFun (nm : String) : Option FunDecl :=
  headerFunDecls.find? (fun d => d.name == nm)

/-- The proper members of a struct body, dropping stray empty declarations. -/
def structFields (es : List StructEntry) : List (String × CType) :=
  es.filterMap fun e =>
    match e with
    | StructEntry.emptyDecl => none
    | StructEntry.field n t => some (n, t)

/-- A struct body entry is allowed by the strict ISO C90/C99 grammar exactly
when it is a proper member declaration: a struct-declaration must have a
specifier-qualifier-list and a declarator list, so a lone `;` is not allowed. -/
def StructEntry.strictISO : StructEntry → Bool
  | StructEntry.emptyDecl => false
  | StructEntry.field _ _ => true

/-- A struct body is strictly conforming ISO C90/C99 when it is nonempty and
every entry is a proper member declaration. -/
def structBodyStrictISO (es : List StructEntry) : Bool :=
  !es.isEmpty && es.all StructEntry.strictISO

/-- A parameter list constrains the arguments a caller may pass exactly when
it is prototyped: `()` leaves the arguments unchecked, while `(void)` and a
named parameter list fix their number and types. -/
def ParamList.constrainsArgs : ParamList → Bool
  | ParamList.unprototyped => false
  | ParamList.voidList => true
  | ParamList.params _ => true

/-- Whether a declared function name carries the `wycc_` prefix. -/
def wyccPrefixed (d : FunDecl) : Bool :=
  "wycc_".data.isPrefixOf d.name.data

/-- Whether a declared function name carries the `wyil_` prefix. -/
def wyilPrefixed (d : FunDecl) : Bool :=
  "wyil_".data.isPrefixOf d.name.data

/-- Classification of one source line of the header. -/
inductive LineKind where
  | comment : LineKind
  | blank : LineKind
  | decl : LineKind
deriving DecidableEq, Repr

/-- The 50 lines of `wycc_lib.h`, classified in order: the 23-line license
comment, a blank, the 6-line struct definition, a blank, a 3-line section
comment, `wycc_main`, the commented-out `wyil_obj_str` line, two prototypes,
a blank, a 3-line section comment, two prototypes, a blank, and the 5-line
editor-settings comment. -/
def headerLineKinds : List LineKind :=
  List.replicate 23 LineKind.comment ++ [LineKind.blank]
    ++ List.replicate 6 LineKind.decl ++ [LineKind.blank]
    ++ List.replicate 3 LineKind.comment ++ [LineKind.decl]
    ++ [LineKind.comment] ++ List.replicate 2 LineKind.decl
    ++ [LineKind.blank] ++ List.replicate 3 LineKind.comment
    ++ List.replicate 2 LineKind.decl ++ [LineKind.blank]
    ++ List.replicate 5 LineKind.comment

end WyccLib

namespace WyccLib

/-- Claim C1, as stated: the header declares exactly four function symbols.
This is false: `wycc_lib.h` declares five function symbols — `wycc_main`,
`wycc_deref_box`, `wycc_box_str`, `wyil_debug_str` and `wyil_debug_obj` —
because the debug-printing hooks are two distinct symbols. -/
theorem c1_counterexample :
    headerFunDecls.length = 5 ∧ ¬ headerFunDecls.length = 4 := by
  decide

/-- Claim C1 (amended): the header declares exactly five function symbols —
an initialization entry point, a deref/unbox operation, a string boxer, and
two debug-printing hooks — each with the signature stated in the spec, and
no other function symbols. -/
theorem c1_header_fun_decls :
    headerFunDecls =
      [wycc_main_decl, wycc_deref_box_decl, wycc_box_str_decl,
       wyil_debug_str_decl, wyil_debug_obj_decl] ∧
    headerFunDecls.length = 5 := by
  decide

/-- Claim C2: the struct behind `wycc_obj` has exactly three proper fields,
in order: `typ` of integer type, `cnt` of integer type, and `ptr` of type
`void*`; no other fields exist. -/
theorem c2_wycc_obj_fields :
    structFields wyccObjEntries =
      [("typ", CType.int), ("cnt", CType.int), ("ptr", CType.ptr CType.void)] := by
  decide

/-- Claim C3: `wycc_deref_box` is declared taking a `wycc_obj` pointer and
an integer flag, and returning a `wycc_obj` pointer. -/
theorem c3_deref_box_sig :
    findFun "wycc_deref_box" =
      some ⟨"wycc_deref_box", CType.ptr (CType.named "wycc_obj"),
        ParamList.params
          [("itm", CType.ptr (CType.named "wycc_obj")), ("flg", CType.int)]⟩ := by
  decide

/-- Claim C4: `wycc_box_str` is declared taking a single `char*` argument
and returning a `wycc_obj` pointer. -/
theorem c4_box_str_sig :
    findFun "wycc_box_str" =
      some ⟨"wycc_box_str", CType.ptr (CType.named "wycc_obj"),
        ParamList.params [("text", CType.ptr CType.char)]⟩ := by
  decide

/-- Claim C5: both debug hooks return `void`; `wyil_debug_str` takes a
`char*` message and `wyil_debug_obj` takes a `wycc_obj` pointer. -/
theorem c5_debug_hook_sigs :
    findFun "wyil_debug_str" =
      some ⟨"wyil_debug_str", CType.void,
        ParamList.params [("mesg", CType.ptr CType.char)]⟩ ∧
    findFun "wyil_debug_obj" =
      some ⟨"wyil_debug_obj", CType.void,
        ParamList.params [("ptr", CType.ptr (CType.named "wycc_obj"))]⟩ := by
  decide

/-- Claim C6: the header is declaration-only — no declaration carries a
function body, and the only definition present is the `typedef struct`
defining `Wycc_object` and the typedef name `wycc_obj`. -/
theorem c6_declaration_only :
    headerDecls.all (fun d => !d.hasBody) = true ∧
    headerDecls.filter CDecl.isDefinition =
      [CDecl.typedefStruct "Wycc_object" wyccObjEntries "wycc_obj"] := by
  decide

/-- Claim C7: the header is 50 lines in total (approximately 50), and the
lines that are comments or blank rather than declarations number 39 of the
50 — at least three quarters of the file. -/
theorem c7_line_budget :
    headerLineKinds.length = 50 ∧
    (headerLineKinds.filter (fun k => k ≠ LineKind.decl)).length = 39 ∧
    3 * headerLineKinds.length ≤
      4 * (headerLineKinds.filter (fun k => k ≠ LineKind.decl)).length := by
  decide

/-- Claim C8: `wycc_main` is declared returning `void` with an empty
unprototyped parameter list — `()`, not `(void)` — which places no
constraint on the arguments a caller may pass. -/
theorem c8_wycc_main_unprototyped :
    findFun "wycc_main" =
      some ⟨"wycc_main", CType.void, ParamList.unprototyped⟩ ∧
    wycc_main_decl.args ≠ ParamList.voidList ∧
    wycc_main_decl.args.constrainsArgs = false := by
  decide

/-- Claim C9: the body of `struct Wycc_object` begins with a stray empty
declaration (a lone semicolon), so the struct body is not strictly
conforming ISO C90/C99. -/
theorem c9_stray_semicolon :
    wyccObjEntries.head? = some StructEntry.emptyDecl ∧
    structBodyStrictISO wyccObjEntries = false := by
  decide

/-- Claim C10: every function symbol in the bookkeeping section carries the
`wycc_` prefix, every function symbol in the wyil-operations section carries
the `wyil_` prefix, these two sections exhaust the header's function
declarations, and every declared symbol carries one of the two prefixes. -/
theorem c10_prefix_discipline :
    bookkeepingSection.all wyccPrefixed = true ∧
    wyilSection.all wyilPrefixed = true ∧
    headerFunDecls = bookkeepingSection ++ wyilSection ∧
    headerFunDecls.all (fun d => wyccPrefixed d || wyilPrefixed d) = true := by
  decide

end WyccLib
